import Mathlib

/-!
# Verification of `server.py` (pr-agent MCP server)

A shallow embedding of `src/projects/unit3/build-mcp-server/starter/server.py`.

The server exposes three operations:
* `analyze_file_changes` — resolves a working directory, runs four git
  subprocess queries, and assembles a JSON report with a possibly truncated
  diff;
* `get_pr_templates` — reads a fixed catalog of template files;
* `suggest_template` — maps a change-type string onto a template.

Effects are modelled by explicit environment records: the outcome of each
subprocess invocation, the root-list provider's answer, the process cwd, and
the template-file reads are inputs to the embedded functions.  Python
exceptions are modelled with `Except String`, carrying the text `str(e)`
would produce.
-/

/-- The result of one `subprocess.run` invocation: exit status plus captured
output streams (`capture_output=True, text=True`). -/
structure SubprocessResult where
  returncode : Int
  stdout : String
  stderr : String
  deriving DecidableEq, Repr

/-- One root returned by the MCP root-list provider (`context.session.list_roots()`):
`uri` is `str(root.uri)`, `path` is `root.uri.path` (possibly empty). -/
structure Root where
  uri : String
  path : String
  deriving DecidableEq, Repr

/-- The environment of one `analyze_file_changes` invocation: the root-list
provider's answer (`.error e` models the provider raising an exception with
text `e`; the same answer is observed by both `list_roots` calls in the body),
`os.getcwd()`, `str(Path(__file__).parent)`, and the outcome of each of the
four git subprocess invocations of this call. -/
structure AnalyzeEnv where
  listRoots : Except String (List Root)
  processCwd : String
  serverFileLocation : String
  filesResult : SubprocessResult
  statResult : SubprocessResult
  diffResult : SubprocessResult
  commitsResult : SubprocessResult

/-- The `roots_check` entry of the debug dict: `{"found": True, "count": n,
"roots": [...]}` on success, `{"found": False, "error": e}` on exception. -/
inductive RootsCheck where
  | found (count : Nat) (roots : List String)
  | notFound (error : String)
  deriving DecidableEq, Repr

/-- The `debug_info` dict assembled at lines 78–99 of `server.py`. -/
structure DebugInfo where
  provided_working_directory : Option String
  actual_cwd : String
  server_process_cwd : String
  server_file_location : String
  roots_check : RootsCheck
  deriving DecidableEq, Repr

/-- The `analysis` dict returned on success (lines 147–156 of `server.py`). -/
structure Analysis where
  base_branch : String
  files_changed : String
  statistics : String
  commits : String
  diff : String
  truncated : Bool
  total_diff_lines : Nat
  debug : DebugInfo
  deriving DecidableEq, Repr

/-- The JSON payload `analyze_file_changes` serializes: either the full
`analysis` dict, or the single-field error dict `{"error": msg}` produced by
the `except subprocess.CalledProcessError` handler. -/
inductive AnalyzeResult where
  | ok (analysis : Analysis)
  | errorPayload (error : String)
  deriving DecidableEq, Repr

/-- Python's `str.split('\n')` on the character list: splitting never returns
an empty list; the empty string yields `[[]]`. -/
def splitNlChars : List Char → List (List Char)
  | [] => [[]]
  | c :: cs =>
    match splitNlChars cs with
    | [] => [[]]
    | l :: ls => if c = '\n' then [] :: l :: ls else (c :: l) :: ls

/-- `diff_result.stdout.split('\n')` (line 128 of `server.py`). -/
def pySplitLines (s : String) : List String :=
  (splitNlChars s.data).map (fun l => String.mk l)

/-- Python's slice `xs[:n]` for an `int` bound `n`: the first `n` elements
when `n ≥ 0`, all but the last `|n|` elements when `n < 0`. -/
def pySliceTo {α : Type} (xs : List α) (n : Int) : List α :=
  if 0 ≤ n then xs.take n.toNat
  else xs.take (xs.length - n.natAbs)

/-- The two-part truncation notice appended at lines 133–134 of `server.py`
(`n` is `max_diff_lines`, `l` is `len(diff_lines)`). -/
def truncationNotice (n : Int) (l : Nat) : String :=
  "\n\n... Output truncated. Showing " ++ toString n ++ " of " ++ toString l
    ++ " lines ..." ++ "\n... Use max_diff_lines parameter to see more ..."

/-- The placeholder diff text used when `include_diff` is false (line 152). -/
def diffPlaceholder : String :=
  "Diff not included (set include_diff=true to see full diff)"

/-- Lines 62–72 of `server.py`: when `working_directory is None`, ask the
provider for roots and take `roots[0].uri.path`; any exception (provider
failure, or `IndexError` on an empty roots list) is swallowed and leaves
`working_directory` as `None`. -/
def resolveWd (working_directory : Option String) (env : AnalyzeEnv) : Option String :=
  match working_directory with
  | some w => some w
  | none =>
    match env.listRoots with
    | .ok (root :: _) => some root.path
    | _ => none

/-- Line 75 of `server.py`:
`cwd = working_directory if working_directory else os.getcwd()` — Python
truthiness, so both `None` and the empty string fall back to `os.getcwd()`. -/
def resolveCwd (working_directory : Option String) (env : AnalyzeEnv) : String :=
  match resolveWd working_directory env with
  | some w => if w = "" then env.processCwd else w
  | none => env.processCwd

/-- Lines 87–99 of `server.py`: the second `list_roots()` probe that fills
`debug_info["roots_check"]` (`roots` holds `str(root.uri)` per root). -/
def rootsCheckOf (env : AnalyzeEnv) : RootsCheck :=
  match env.listRoots with
  | .ok roots => RootsCheck.found roots.length (roots.map (·.uri))
  | .error e => RootsCheck.notFound e

/-- Lines 78–99 of `server.py`: the debug dict, recording the
post-resolution `working_directory` (the variable was reassigned at line 69),
the resolved `cwd`, and the roots probe. -/
def debugInfoOf (working_directory : Option String) (env : AnalyzeEnv) : DebugInfo :=
  { provided_working_directory := resolveWd working_directory env
    actual_cwd := resolveCwd working_directory env
    server_process_cwd := env.processCwd
    server_file_location := env.serverFileLocation
    roots_check := rootsCheckOf env }

/-- Lines 119–137 of `server.py`: `(diff_content, truncated)` as computed
under `if include_diff:`; when `include_diff` is false both keep their
initial values `("", False)`. -/
def diffAndTruncated (max_diff_lines : Int) (include_diff : Bool)
    (diffStdout : String) : String × Bool :=
  if include_diff then
    let diff_lines := pySplitLines diffStdout
    if (diff_lines.length : Int) > max_diff_lines then
      (String.intercalate "\n" (pySliceTo diff_lines max_diff_lines)
        ++ truncationNotice max_diff_lines diff_lines.length, true)
    else
      (diffStdout, false)
  else ("", false)

/-- Lines 147–156 of `server.py`: the `analysis` dict of a successful run.
`total_diff_lines` is `len(diff_lines) if include_diff else 0` — the length
of the untruncated split, computed before truncation. -/
def analysisOf (base_branch : String) (max_diff_lines : Int) (include_diff : Bool)
    (working_directory : Option String) (env : AnalyzeEnv) : Analysis :=
  { base_branch := base_branch
    files_changed := env.filesResult.stdout
    statistics := env.statResult.stdout
    commits := env.commitsResult.stdout
    diff := if include_diff then
        (diffAndTruncated max_diff_lines include_diff env.diffResult.stdout).1
      else diffPlaceholder
    truncated := (diffAndTruncated max_diff_lines include_diff env.diffResult.stdout).2
    total_diff_lines := if include_diff then (pySplitLines env.diffResult.stdout).length else 0
    debug := debugInfoOf working_directory env }

/-- `analyze_file_changes` (lines 51–163 of `server.py`): the file-list query
runs with `check=True`, so a non-zero exit raises `CalledProcessError`,
caught at line 160 as `{"error": f"Git error: {e.stderr}"}`; the stat, diff
and log queries (no `check`) never raise on a non-zero exit and their
captured stdout is used as-is in the report. -/
def analyze_file_changes (base_branch : String) (max_diff_lines : Int)
    (include_diff : Bool) (working_directory : Option String)
    (env : AnalyzeEnv) : AnalyzeResult :=
  if env.filesResult.returncode ≠ 0 then
    AnalyzeResult.errorPayload ("Git error: " ++ env.filesResult.stderr)
  else
    AnalyzeResult.ok (analysisOf base_branch max_diff_lines include_diff working_directory env)

/-- Projects the resolved working directory (`actual_cwd` of the debug dict)
out of a successful report. -/
def reportActualCwd : AnalyzeResult → Option String
  | .ok a => some a.debug.actual_cwd
  | .errorPayload _ => none

/-- The `DEFAULT_TEMPLATES` dict of `server.py` (lines 22–30), in its
insertion order (Python dicts preserve it, and the order matters for the
scan loop of `suggest_template`). -/
def DEFAULT_TEMPLATES : List (String × String) :=
  [("bug.md", "Bug Fix"), ("feature.md", "Feature"), ("docs.md", "Documentation"),
   ("refactor.md", "Refactor"), ("test.md", "Test"), ("performance.md", "Performance"),
   ("security.md", "Security")]

/-- The `TYPE_MAPPING` dict of `server.py` (lines 33–47). -/
def TYPE_MAPPING : List (String × String) :=
  [("bug", "bug.md"), ("fix", "bug.md"), ("feature", "feature.md"),
   ("enhancement", "feature.md"), ("docs", "docs.md"), ("documentation", "docs.md"),
   ("refactor", "refactor.md"), ("cleanup", "refactor.md"), ("test", "test.md"),
   ("testing", "test.md"), ("performance", "performance.md"),
   ("optimization", "performance.md"), ("security", "security.md")]

/-- Python `d.get(k, dflt)` on an insertion-ordered string dict. -/
def dictGetD (d : List (String × String)) (k dflt : String) : String :=
  match d.find? (fun p => p.1 == k) with
  | some p => p.2
  | none => dflt

/-- The filesystem seen by the template catalog: `readText name` models
`(TEMPLATES_DIR / name).read_text()`, `.error e` a raised `OSError` with
text `e`. -/
structure FsEnv where
  readText : String → Except String String

/-- One entry of the template list built by `get_pr_templates`. -/
structure TemplateFile where
  filename : String
  type : String
  content : String
  deriving DecidableEq, Repr

/-- `get_pr_templates` (lines 167–181 of `server.py`): builds one record per
`DEFAULT_TEMPLATES` entry, in order; the first failing file read aborts the
comprehension and the whole call returns `{"error": str(e)}` instead. -/
def get_pr_templates (fs : FsEnv) : Except String (List TemplateFile) :=
  DEFAULT_TEMPLATES.mapM (fun p => do
    let content ← fs.readText p.1
    pure { filename := p.1, type := p.2, content := content })

/-- The Python value `json.loads(templates_response)` inside
`suggest_template`: a list on catalog success, the dict `{"error": e}` on
catalog failure. -/
inductive TemplatesJson where
  | list (ts : List TemplateFile)
  | errorDict (e : String)
  deriving Repr

/-- Decoding the JSON text returned by `get_pr_templates` (the JSON
round-trip is the identity on this data). -/
def decodeTemplates : Except String (List TemplateFile) → TemplatesJson
  | .ok ts => TemplatesJson.list ts
  | .error e => TemplatesJson.errorDict e

/-- The attribute access `templates.get(template_type, "")` at line 199 of
`server.py`: a Python `list` has no `.get` attribute, so on catalog success
this raises `AttributeError`; on the `{"error": e}` dict it returns the value
for the key or the default. -/
def TemplatesJson.pyGet : TemplatesJson → String → String → Except String String
  | .list _, _, _ => .error "'list' object has no attribute 'get'"
  | .errorDict e, key, dflt => .ok (if key = "error" then e else dflt)

/-- The `for template in templates` scan (lines 200–206 of `server.py`) over a
decoded list, with the loop-local variable `relative_template` threaded as an
`Option` (`none` = still unbound): a matching element is assigned and the
loop breaks; a non-matching element assigns `templates[0]` (IndexError on an
empty `full` list); falling off the loop with the variable unbound raises
`UnboundLocalError` at line 208. -/
def scanLoop (full : List TemplateFile) (template_type : String) :
    List TemplateFile → Option TemplateFile → Except String TemplateFile
  | [], acc =>
    match acc with
    | some t => .ok t
    | none => .error "local variable 'relative_template' referenced before assignment"
  | t :: rest, _ =>
    if t.filename = template_type then .ok t
    else
      match full with
      | [] => .error "list index out of range"
      | f :: _ => scanLoop full template_type rest (some f)

/-- Iterating `templates` in the `for` loop: iterating a decoded list scans
its elements; iterating the `{"error": e}` dict yields its single key, the
string `"error"`, and `template["filename"]` on a string raises `TypeError`
(line 201). -/
def templateScan : TemplatesJson → String → Except String TemplateFile
  | .list ts, template_type => scanLoop ts template_type ts none
  | .errorDict _, _ => .error "string indices must be integers"

/-- `recommended_template` is a template dict on the success path and a plain
string on the error path of `suggest_template`. -/
inductive TemplateOrStr where
  | t (x : TemplateFile)
  | s (x : String)
  deriving DecidableEq, Repr

/-- The `suggestion` dict serialized by `suggest_template`. -/
structure Suggestion where
  recommended_template : TemplateOrStr
  reasoning : String
  template_content : String
  suggestion : String
  deriving DecidableEq, Repr

/-- The `try` block of `suggest_template` (lines 192–212 of `server.py`):
load the catalog, resolve `change_type` through `TYPE_MAPPING` (defaulting to
`"feature.md"`), evaluate the dead `templates.get(...).lower()` expression of
line 199 (whose only effect is the exception it raises), run the scan loop,
and build the suggestion dict. -/
def suggest_template_try (changes_summary change_type : String) (fs : FsEnv) :
    Except String Suggestion :=
  let templates := decodeTemplates (get_pr_templates fs)
  let template_type := dictGetD TYPE_MAPPING change_type.toLower "feature.md"
  match templates.pyGet template_type "" with
  | .error e => .error e
  | .ok got =>
    let _template_with_relative_type := got.toLower
    match templateScan templates template_type with
    | .error e => .error e
    | .ok relative_template =>
      .ok { recommended_template := TemplateOrStr.t relative_template
            reasoning := "Based on your analysis: '" ++ changes_summary
              ++ "', this appears to be a " ++ change_type ++ " change."
            template_content := relative_template.content
            suggestion := "Claude can help you fill out this template based on the specific changes in your PR." }

/-- The `except Exception` payload of `suggest_template` (lines 214–221):
`str(e)` is echoed into all four fields (note the branch's `reasoning` string
contains the literal text `changes_summary`, not the parameter). -/
def errorSuggestion (e : String) : Suggestion :=
  { recommended_template := TemplateOrStr.s ("recommended_template " ++ e)
    reasoning := "Based on your analysis: changes_summary, this appears to be a "
      ++ e ++ " change."
    template_content := "template_content " ++ e
    suggestion := "Claude can help you fill out this template based on the specific changes in your PR. "
      ++ e }

/-- `suggest_template` (lines 185–223 of `server.py`): the `try` block's dict
on success, the error-echo dict when the block raises. -/
def suggest_template (changes_summary change_type : String) (fs : FsEnv) : Suggestion :=
  match suggest_template_try changes_summary change_type fs with
  | .ok s => s
  | .error e => errorSuggestion e

/-- A sample environment: provider knows one root (`file:///repo`), process
cwd `/srv`, all four git queries succeed, diff output of four lines. -/
def sampleEnv : AnalyzeEnv :=
  { listRoots := .ok [{ uri := "file:///repo", path := "/repo" }]
    processCwd := "/srv"
    serverFileLocation := "/app/starter"
    filesResult := { returncode := 0, stdout := "M\tsrc/app.py\n", stderr := "" }
    statResult := { returncode := 0, stdout := " 1 file changed\n", stderr := "" }
    diffResult := { returncode := 0, stdout := "line1\nline2\nline3\nline4", stderr := "" }
    commitsResult := { returncode := 0, stdout := "abc123 tweak\n", stderr := "" } }

/-- `sampleEnv` with the file-list query failing as in the spec scenario. -/
def gitFailEnv : AnalyzeEnv :=
  { sampleEnv with
    filesResult := { returncode := 128, stdout := "", stderr := "fatal: bad revision" } }

/-- `sampleEnv` with the root-list provider raising. -/
def rootsFailEnv : AnalyzeEnv :=
  { sampleEnv with listRoots := .error "Method not found" }

/-- `sampleEnv` with a newline-terminated diff output. -/
def newlineDiffEnv : AnalyzeEnv :=
  { sampleEnv with
    diffResult := { returncode := 0, stdout := "line1\nline2\n", stderr := "" } }

/-- A filesystem on which every template file read succeeds. -/
def okFs : FsEnv := { readText := fun name => .ok ("Template body for " ++ name) }

/-- A filesystem on which every template file read raises. -/
def badFs : FsEnv := { readText := fun _ => .error "No such file or directory" }

/-- `splitNlChars` never returns the empty list. -/
theorem splitNlChars_ne_nil (cs : List Char) : splitNlChars cs ≠ [] := by
  cases cs with
  | nil => simp [splitNlChars]
  | cons c cs =>
    simp only [splitNlChars]
    cases h : splitNlChars cs with
    | nil => simp
    | cons l ls =>
      by_cases hc : c = '\n' <;> simp [hc]

/-- Splitting on `'\n'` yields one more segment than there are newline
characters. -/
theorem splitNlChars_length (cs : List Char) :
    (splitNlChars cs).length = cs.count '\n' + 1 := by
  induction cs with
  | nil => simp [splitNlChars]
  | cons c cs ih =>
    simp only [splitNlChars]
    cases h : splitNlChars cs with
    | nil => exact absurd h (splitNlChars_ne_nil cs)
    | cons l ls =>
      rw [h] at ih
      show (if c = '\n' then [] :: l :: ls else (c :: l) :: ls).length =
        List.count '\n' (c :: cs) + 1
      by_cases hc : c = '\n'
      · rw [if_pos hc, hc]
        simp only [List.count_cons, List.length_cons, beq_self_eq_true, if_pos] at ih ⊢
        omega
      · rw [if_neg hc]
        have hb : (c == '\n') = false := by simp [hc]
        simp [List.count_cons, hb] at ih ⊢
        omega

/-- The Python split yields one more line than there are newline characters
in the string. -/
theorem pySplitLines_length (s : String) :
    (pySplitLines s).length = s.data.count '\n' + 1 := by
  simp [pySplitLines, splitNlChars_length]

/-- For a non-negative bound, the Python slice `xs[:n]` is `List.take`. -/
theorem pySliceTo_of_nonneg {α : Type} (xs : List α) (n : Int) (hn : 0 ≤ n) :
    pySliceTo xs n = xs.take n.toNat := by
  simp [pySliceTo, hn]

/-- A zero exit of the file-list query makes `analyze_file_changes` return
the assembled report. -/
theorem analyze_file_changes_ok (base_branch : String) (max_diff_lines : Int)
    (include_diff : Bool) (working_directory : Option String) (env : AnalyzeEnv)
    (hgit : env.filesResult.returncode = 0) :
    analyze_file_changes base_branch max_diff_lines include_diff working_directory env =
      AnalyzeResult.ok (analysisOf base_branch max_diff_lines include_diff working_directory env) := by
  unfold analyze_file_changes
  simp [hgit]

/-- The `try` block of `suggest_template` raises on every input: on catalog
success `templates` is a list and `templates.get` raises `AttributeError`;
on catalog failure `templates` is the `{"error": e}` dict, `.get` succeeds,
and the scan loop subscripts the string key `"error"`, raising `TypeError`. -/
theorem suggest_template_try_error (cs ct : String) (fs : FsEnv) :
    suggest_template_try cs ct fs = Except.error
      (match get_pr_templates fs with
       | .ok _ => "'list' object has no attribute 'get'"
       | .error _ => "string indices must be integers") := by
  unfold suggest_template_try
  cases h : get_pr_templates fs <;>
    simp [decodeTemplates, TemplatesJson.pyGet, templateScan, h]

/-- **C1**: for `analyze_file_changes` with `include_diff = true` and any
non-negative `max_diff_lines = N`, writing `L` for the number of lines of the
diff output (split on `'\n'`): if `L > N` the report's diff is exactly the
first `N` lines joined by newlines, followed by the two-part truncation
notice stating that `N` of `L` lines are shown and how to request more, and
`truncated = true`; if `L ≤ N` the report's diff equals the original diff
text unmodified and `truncated = false`. -/
theorem analyze_truncation_correct (bb : String) (N : Int) (wd : Option String)
    (env : AnalyzeEnv) (hN : 0 ≤ N) (hgit : env.filesResult.returncode = 0) :
    ∃ r, analyze_file_changes bb N true wd env = AnalyzeResult.ok r ∧
      (((pySplitLines env.diffResult.stdout).length : Int) > N →
        r.diff = String.intercalate "\n" ((pySplitLines env.diffResult.stdout).take N.toNat)
            ++ truncationNotice N (pySplitLines env.diffResult.stdout).length ∧
          r.truncated = true) ∧
      (((pySplitLines env.diffResult.stdout).length : Int) ≤ N →
        r.diff = env.diffResult.stdout ∧ r.truncated = false) := by
  refine ⟨_, analyze_file_changes_ok bb N true wd env hgit, ?_, ?_⟩ <;> intro h
  · exact ⟨by simp [analysisOf, diffAndTruncated, h, pySliceTo_of_nonneg _ _ hN],
           by simp [analysisOf, diffAndTruncated, h]⟩
  · exact ⟨by simp [analysisOf, diffAndTruncated, not_lt.mpr h],
           by simp [analysisOf, diffAndTruncated, not_lt.mpr h]⟩

/-- Witness for `analyze_truncation_correct` at `N = 2` on `sampleEnv`,
whose diff output has 4 lines, so the truncating branch fires. -/
theorem analyze_truncation_correct_witness :
    (0:Int) ≤ 2 ∧ sampleEnv.filesResult.returncode = 0 ∧
    (∃ r, analyze_file_changes "main" 2 true none sampleEnv = AnalyzeResult.ok r ∧
      (((pySplitLines sampleEnv.diffResult.stdout).length : Int) > 2 →
        r.diff = String.intercalate "\n" ((pySplitLines sampleEnv.diffResult.stdout).take (2:Int).toNat)
            ++ truncationNotice 2 (pySplitLines sampleEnv.diffResult.stdout).length ∧
          r.truncated = true) ∧
      (((pySplitLines sampleEnv.diffResult.stdout).length : Int) ≤ 2 →
        r.diff = sampleEnv.diffResult.stdout ∧ r.truncated = false)) :=
  ⟨by decide, by decide, analyze_truncation_correct "main" 2 none sampleEnv (by decide) (by decide)⟩

/-- **C2**: if the changed-file-list query exits non-zero, the operation
returns exactly the single-field payload `{"error": "Git error: <stderr>"}`
(the `errorPayload` constructor carries only the message); if the file-list
query exits zero, the operation succeeds regardless of the exit status of
the stat, diff and log queries (they are tolerated, never checked). -/
theorem analyze_git_error_strict (bb : String) (N : Int) (incl : Bool)
    (wd : Option String) (env : AnalyzeEnv) :
    (env.filesResult.returncode ≠ 0 →
      analyze_file_changes bb N incl wd env =
        AnalyzeResult.errorPayload ("Git error: " ++ env.filesResult.stderr)) ∧
    (env.filesResult.returncode = 0 →
      ∃ r, analyze_file_changes bb N incl wd env = AnalyzeResult.ok r) := by
  constructor
  · intro h
    unfold analyze_file_changes
    rw [if_pos h]
  · intro h
    exact ⟨_, analyze_file_changes_ok bb N incl wd env h⟩

/-- Witness for `analyze_git_error_strict` on `gitFailEnv`, whose file-list
query exits 128 with stderr `"fatal: bad revision"` (the spec scenario). -/
theorem analyze_git_error_strict_witness :
    gitFailEnv.filesResult.returncode ≠ 0 ∧
    analyze_file_changes "main" 500 true none gitFailEnv =
      AnalyzeResult.errorPayload ("Git error: " ++ gitFailEnv.filesResult.stderr) ∧
    ("Git error: " ++ gitFailEnv.filesResult.stderr) = "Git error: fatal: bad revision" :=
  ⟨by decide, (analyze_git_error_strict "main" 500 true none gitFailEnv).1 (by decide), by decide⟩

/-- **C3** counterexample: an explicitly provided working directory is *not*
always used verbatim.  With the explicit (empty) directory `""` the code
falls through Python truthiness at line 75 and uses `os.getcwd()` (`"/srv"`
in `sampleEnv`) instead of the provided value. -/
theorem analyze_explicit_empty_dir_counterexample :
    reportActualCwd (analyze_file_changes "main" 500 true (some "") sampleEnv) = some "/srv" ∧
    reportActualCwd (analyze_file_changes "main" 500 true (some "") sampleEnv) ≠ some "" := by
  constructor <;> decide

/-- **C3** amended: working-directory resolution follows the three-branch
priority up to Python truthiness — a provided *non-empty* directory is used
verbatim (a provided empty one falls back to the process cwd, without
consulting the provider); otherwise the first root's path is used when it is
non-empty and the process cwd when it is empty; otherwise (provider erroring
or returning no roots) the process cwd is used. -/
theorem analyze_cwd_resolution (bb : String) (N : Int) (incl : Bool)
    (wd : Option String) (env : AnalyzeEnv) (hgit : env.filesResult.returncode = 0) :
    ∃ r, analyze_file_changes bb N incl wd env = AnalyzeResult.ok r ∧
      r.debug.actual_cwd =
        (match wd with
         | some w => if w = "" then env.processCwd else w
         | none =>
           match env.listRoots with
           | .ok (root :: _) => if root.path = "" then env.processCwd else root.path
           | _ => env.processCwd) := by
  refine ⟨_, analyze_file_changes_ok bb N incl wd env hgit, ?_⟩
  simp only [analysisOf, debugInfoOf]
  cases wd with
  | some w => simp [resolveCwd, resolveWd]
  | none =>
    cases hr : env.listRoots with
    | ok roots => cases roots <;> simp [resolveCwd, resolveWd, hr]
    | error e => simp [resolveCwd, resolveWd, hr]

/-- Witness for `analyze_cwd_resolution` on `sampleEnv` with no explicit
directory: the first root's path is used. -/
theorem analyze_cwd_resolution_witness :
    sampleEnv.filesResult.returncode = 0 ∧
    (∃ r, analyze_file_changes "main" 500 true none sampleEnv = AnalyzeResult.ok r ∧
      r.debug.actual_cwd =
        (match (none : Option String) with
         | some w => if w = "" then sampleEnv.processCwd else w
         | none =>
           match sampleEnv.listRoots with
           | .ok (root :: _) => if root.path = "" then sampleEnv.processCwd else root.path
           | _ => sampleEnv.processCwd)) :=
  ⟨by decide, analyze_cwd_resolution "main" 500 true none sampleEnv (by decide)⟩

/-- **C6**: with `include_diff = true` the report's `total_diff_lines` equals
the line count of the untruncated diff output (whatever `max_diff_lines` is,
so independent of truncation); with `include_diff = false` it is `0` and the
diff field is the fixed placeholder string. -/
theorem analyze_total_diff_lines_spec (bb : String) (N : Int) (wd : Option String)
    (env : AnalyzeEnv) (hgit : env.filesResult.returncode = 0) :
    (∃ r, analyze_file_changes bb N true wd env = AnalyzeResult.ok r ∧
      r.total_diff_lines = (pySplitLines env.diffResult.stdout).length) ∧
    (∃ r, analyze_file_changes bb N false wd env = AnalyzeResult.ok r ∧
      r.total_diff_lines = 0 ∧ r.diff = diffPlaceholder) := by
  constructor
  · exact ⟨_, analyze_file_changes_ok bb N true wd env hgit, by simp [analysisOf]⟩
  · exact ⟨_, analyze_file_changes_ok bb N false wd env hgit, by simp [analysisOf],
      by simp [analysisOf]⟩

/-- Witness for `analyze_total_diff_lines_spec` on `sampleEnv`. -/
theorem analyze_total_diff_lines_spec_witness :
    sampleEnv.filesResult.returncode = 0 ∧
    ((∃ r, analyze_file_changes "main" 500 true none sampleEnv = AnalyzeResult.ok r ∧
        r.total_diff_lines = (pySplitLines sampleEnv.diffResult.stdout).length) ∧
     (∃ r, analyze_file_changes "main" 500 false none sampleEnv = AnalyzeResult.ok r ∧
        r.total_diff_lines = 0 ∧ r.diff = diffPlaceholder)) :=
  ⟨by decide, analyze_total_diff_lines_spec "main" 500 none sampleEnv (by decide)⟩

/-- **C7**: an error raised by the root-list provider never fails the
operation — whenever the file-list query succeeds the operation returns a
report, that report's diagnostics record the provider's error text in
`roots_check`, and (when no explicit directory was given, i.e. the branch
that consulted the provider) the fallback to the process cwd was taken. -/
theorem analyze_roots_error_recovered (bb : String) (N : Int) (incl : Bool)
    (wd : Option String) (env : AnalyzeEnv) (e : String)
    (hroots : env.listRoots = Except.error e) (hgit : env.filesResult.returncode = 0) :
    ∃ r, analyze_file_changes bb N incl wd env = AnalyzeResult.ok r ∧
      r.debug.roots_check = RootsCheck.notFound e ∧
      (wd = none → r.debug.actual_cwd = env.processCwd) := by
  refine ⟨_, analyze_file_changes_ok bb N incl wd env hgit, ?_, ?_⟩
  · simp [analysisOf, debugInfoOf, rootsCheckOf, hroots]
  · rintro rfl
    simp [analysisOf, debugInfoOf, resolveCwd, resolveWd, hroots]

/-- Witness for `analyze_roots_error_recovered` on `rootsFailEnv`, whose
provider raises `"Method not found"`. -/
theorem analyze_roots_error_recovered_witness :
    rootsFailEnv.listRoots = Except.error "Method not found" ∧
    rootsFailEnv.filesResult.returncode = 0 ∧
    (∃ r, analyze_file_changes "main" 500 true none rootsFailEnv = AnalyzeResult.ok r ∧
      r.debug.roots_check = RootsCheck.notFound "Method not found" ∧
      ((none : Option String) = none → r.debug.actual_cwd = rootsFailEnv.processCwd)) :=
  ⟨rfl, by decide,
   analyze_roots_error_recovered "main" 500 true none rootsFailEnv "Method not found" rfl (by decide)⟩

/-- **C10**: line counting splits on `'\n'` — with `include_diff = true`, a
diff output ending in a newline yields `total_diff_lines` equal to the number
of newline-terminated lines (the count of `'\n'` characters) plus one for the
trailing empty segment, and an empty diff output yields `total_diff_lines = 1`,
not `0`. -/
theorem analyze_line_counting (bb : String) (N : Int) (wd : Option String)
    (env : AnalyzeEnv) (hgit : env.filesResult.returncode = 0) :
    ∃ r, analyze_file_changes bb N true wd env = AnalyzeResult.ok r ∧
      (env.diffResult.stdout.endsWith "\n" = true →
        r.total_diff_lines = env.diffResult.stdout.data.count '\n' + 1) ∧
      (env.diffResult.stdout = "" → r.total_diff_lines = 1) := by
  refine ⟨_, analyze_file_changes_ok bb N true wd env hgit, ?_, ?_⟩
  · intro _
    simp [analysisOf, pySplitLines_length]
  · intro h
    simp [analysisOf, pySplitLines_length, h]

/-- Witness for `analyze_line_counting` on `newlineDiffEnv`, whose diff
output `"line1\nline2\n"` ends with a newline. -/
theorem analyze_line_counting_witness :
    newlineDiffEnv.filesResult.returncode = 0 ∧
    (∃ r, analyze_file_changes "main" 500 true none newlineDiffEnv = AnalyzeResult.ok r ∧
      (newlineDiffEnv.diffResult.stdout.endsWith "\n" = true →
        r.total_diff_lines = newlineDiffEnv.diffResult.stdout.data.count '\n' + 1) ∧
      (newlineDiffEnv.diffResult.stdout = "" → r.total_diff_lines = 1)) :=
  ⟨by decide, analyze_line_counting "main" 500 none newlineDiffEnv (by decide)⟩

/-- **C5**: for every input pair and every template filesystem,
`suggest_template` returns the error-shaped payload, never a successful
recommendation: on catalog success the `.get` call on the decoded list raises
`AttributeError`, on catalog failure the loop over the error dict raises
`TypeError`, so the success branch is unreachable. -/
theorem suggest_template_always_error (cs ct : String) (fs : FsEnv) :
    suggest_template cs ct fs = errorSuggestion
      (match get_pr_templates fs with
       | .ok _ => "'list' object has no attribute 'get'"
       | .error _ => "string indices must be integers") := by
  unfold suggest_template
  rw [suggest_template_try_error]

/-- **C4**: the alias table does map `"fix"` to `"bug.md"`, but the
operation never returns that recommendation — evaluated with `change_type =
"fix"` on a filesystem where every template loads, `suggest_template`
returns the error-echo payload for the `AttributeError` raised at line 199,
not a recommendation carrying `bug.md`. -/
theorem suggest_template_fix_eval :
    dictGetD TYPE_MAPPING "fix" "feature.md" = "bug.md" ∧
    suggest_template "Fixed a crash in the parser" "fix" okFs =
      errorSuggestion "'list' object has no attribute 'get'" :=
  ⟨rfl, rfl⟩

/-- **C8**: `"improvement"` is not a key of the alias table and resolves to
the default `"feature.md"`, but the operation never returns the feature
template — evaluated on a filesystem where every template loads, it returns
the error-echo payload for the `AttributeError` raised at line 199. -/
theorem suggest_template_unknown_eval :
    TYPE_MAPPING.find? (fun p => p.1 == "improvement") = none ∧
    dictGetD TYPE_MAPPING "improvement" "feature.md" = "feature.md" ∧
    suggest_template "Assorted improvements" "improvement" okFs =
      errorSuggestion "'list' object has no attribute 'get'" :=
  ⟨rfl, rfl, rfl⟩

/-- **C9**: whenever the `try` block of `suggest_template` raises with text
`e`, the operation returns the Recommendation-shaped error payload, and `e`
is embedded in every one of its four fields (each field is of the form
`a ++ e ++ b`), rather than raising to the caller. -/
theorem suggest_template_error_echo (cs ct e : String) (fs : FsEnv)
    (h : suggest_template_try cs ct fs = Except.error e) :
    suggest_template cs ct fs = errorSuggestion e ∧
    (∃ a b, (suggest_template cs ct fs).recommended_template = TemplateOrStr.s (a ++ e ++ b)) ∧
    (∃ a b, (suggest_template cs ct fs).reasoning = a ++ e ++ b) ∧
    (∃ a b, (suggest_template cs ct fs).template_content = a ++ e ++ b) ∧
    (∃ a b, (suggest_template cs ct fs).suggestion = a ++ e ++ b) := by
  have hs : suggest_template cs ct fs = errorSuggestion e := by
    unfold suggest_template
    rw [h]
  refine ⟨hs, ⟨"recommended_template ", "", ?_⟩,
    ⟨"Based on your analysis: changes_summary, this appears to be a ", " change.", ?_⟩,
    ⟨"template_content ", "", ?_⟩,
    ⟨"Claude can help you fill out this template based on the specific changes in your PR. ", "", ?_⟩⟩ <;>
    rw [hs] <;> simp [errorSuggestion]

/-- Witness for `suggest_template_error_echo` on `badFs` (catalog load
fails, so the loop over the error dict raises `TypeError`). -/
theorem suggest_template_error_echo_witness :
    suggest_template_try "summary" "fix" badFs = Except.error "string indices must be integers" ∧
    (suggest_template "summary" "fix" badFs = errorSuggestion "string indices must be integers" ∧
     (∃ a b, (suggest_template "summary" "fix" badFs).recommended_template =
        TemplateOrStr.s (a ++ "string indices must be integers" ++ b)) ∧
     (∃ a b, (suggest_template "summary" "fix" badFs).reasoning =
        a ++ "string indices must be integers" ++ b) ∧
     (∃ a b, (suggest_template "summary" "fix" badFs).template_content =
        a ++ "string indices must be integers" ++ b) ∧
     (∃ a b, (suggest_template "summary" "fix" badFs).suggestion =
        a ++ "string indices must be integers" ++ b)) :=
  ⟨rfl, suggest_template_error_echo "summary" "fix" "string indices must be integers" badFs rfl⟩
